import Mathlib

/-!
Shallow embedding of the milk HTTP middleware engine
(src/context.go, src/error.go, src/router.go, src/unnamed/part_000..003).

The per-request engine exists in two generations in the repository:
the struct-based `Context` in src/context.go and the interface-based
`context` in src/unnamed/part_003.  Both are embedded below; the richer
part_003 version (which carries result, pagination and the resolution
policy `respond`) is the primary model, and the struct-based `Next`
(src/context.go lines 105-120, which additionally consults the response
guard's written flag) is embedded as `nextV1`.

Machine-level conventions of the embedding:
- Go `interface{}` values that may be handed to `json.Marshal` are
  modelled by `GoVal`: either a serializable value together with its
  JSON rendering, or an unserializable one (a channel, a function, a
  cyclic value), on which `json.Marshal` fails.
- The guarded response writer (`responseWriter`, part_003 lines 272-290)
  is modelled by the `written` flag plus the ordered list `events` of
  writes that reached the underlying writer; `headers` records
  `Header().Set` calls and `logs` records `Errorf` calls.  `invoked` is
  pure instrumentation recording which handler indices have run.
- A handler (external code, signature `func(c Context) error`) observes
  the context through its exported API only; this read view is
  `CtxView`.  Its side effects are the context API calls it performs,
  modelled as the first-order list `HandlerEffect.ops`, followed by its
  returned error.
-/

/-- A Go `interface{}` value as seen by `json.Marshal`: either a value that
serializes to the given JSON text, or a value (channel, function, cyclic
data) on which `json.Marshal` returns an error. -/
inductive GoVal where
  | jsonable (rendering : String)
  | unjsonable
deriving DecidableEq, Repr

/-- FieldError from src/error.go lines 84-89: field name, machine error code,
human message, optional structured data (Go `interface{}`). -/
structure FieldError where
  fieldName : String
  errorCode : String
  message : String
  data : Option GoVal
deriving DecidableEq, Repr

/-- Whether `json.Marshal` succeeds on this field error (its data is either
absent or itself serializable). -/
def FieldError.serializable (fe : FieldError) : Bool :=
  fe.data ≠ some GoVal.unjsonable

/-- The closed error taxonomy of the engine: `api` is `*Error`
(src/error.go lines 28-42, status code plus optional message),
`validation` is `*ValidationError` (lines 44-70, ordered field errors),
`slice` is `ErrorSlice`/`Errors` (the aggregate built by `Err()`), and
`other` is any other Go error a handler may return, identified by its
`Error()` message. -/
inductive GoErr where
  | api (statusCode : Nat) (message : String)
  | validation (errors : List FieldError)
  | slice (errs : List GoErr)
  | other (message : String)
deriving Repr

/-- StatusValidationError constant from src/error.go line 8. -/
def StatusValidationError : Nat := 422

/-- ErrUnauthorized singleton, src/error.go line 21: `NewError(401, "")`. -/
def ErrUnauthorized : GoErr := GoErr.api 401 ""

/-- ErrForbidden singleton, src/error.go line 22: `NewError(403, "")`. -/
def ErrForbidden : GoErr := GoErr.api 403 ""

/-- ErrNotFound singleton, src/error.go line 23: `NewError(404, "")`. -/
def ErrNotFound : GoErr := GoErr.api 404 ""

/-- ErrConflict singleton, src/error.go line 24: `NewError(409, "")`. -/
def ErrConflict : GoErr := GoErr.api 409 ""

/-- ErrBadRequest singleton, src/error.go line 25: `NewError(400, "")`. -/
def ErrBadRequest : GoErr := GoErr.api 400 ""

mutual

/-- The `Error()` method of every error in the taxonomy.
`api`: src/error.go lines 40-42 (`"API Error (%d): %s"`);
`validation`: src/error.go lines 54-56 (`"Validation error"`);
`slice`: `ErrorSlice.Error` (src/unnamed/part_003 lines 83-99, textually
identical to `Errors.Error` in src/context.go lines 17-33);
`other`: the wrapped error's own message. -/
def GoErr.errorString : GoErr → String
  | GoErr.api statusCode message => "API Error (" ++ toString statusCode ++ "): " ++ message
  | GoErr.validation _ => "Validation error"
  | GoErr.other message => message
  | GoErr.slice [] => "(no errors)"
  | GoErr.slice [e] => GoErr.errorString e
  | GoErr.slice errs => "Multiple handlers returned error:\n" ++ GoErr.errorStringFrom 1 errs
termination_by e => sizeOf e
decreasing_by all_goals (simp_wf <;> omega)

/-- The loop body of `ErrorSlice.Error`'s default case: for each error,
append `"Error #<i>\n"`, its message and a newline, with `i` counting
from the given start index. -/
def GoErr.errorStringFrom : Nat → List GoErr → String
  | _, [] => ""
  | i, e :: rest =>
    "Error #" ++ toString i ++ "\n" ++ GoErr.errorString e ++ "\n" ++
      GoErr.errorStringFrom (i + 1) rest
termination_by _i l => sizeOf l
decreasing_by all_goals (simp_wf <;> omega)

end

/-- A value held in the context's result slot: either a value a handler set
via `SetResult`, or one of the two structured bodies the resolution policy
itself installs (the validation body struct of part_003 lines 230-241, or
the `*Error` object itself, line 245). -/
inductive ResultVal where
  | user (v : GoVal)
  | validationBody (statusCode : Nat) (errorCode : String) (message : String)
      (errors : List FieldError)
  | apiError (statusCode : Nat) (message : String)
deriving Repr

/-- json.Marshal on a result value: returns the marshalled value, or `none`
when marshalling fails (an unserializable user value, or a field error
carrying unserializable data). The `*Error` and the validation body struct
are plain string/int structs apart from the field errors' data. -/
def marshal : ResultVal → Option ResultVal
  | ResultVal.user GoVal.unjsonable => none
  | ResultVal.user (GoVal.jsonable r) => some (ResultVal.user (GoVal.jsonable r))
  | ResultVal.validationBody sc ec m fes =>
    if fes.all FieldError.serializable then
      some (ResultVal.validationBody sc ec m fes)
    else none
  | ResultVal.apiError sc m => some (ResultVal.apiError sc m)

/-- Bytes written through the guarded response writer's `Write`: either raw
bytes a handler wrote directly, or the engine's JSON rendering of a
marshalled result value. -/
inductive Body where
  | raw (bytes : String)
  | json (v : ResultVal)
deriving Repr

/-- One call that reached the underlying `http.ResponseWriter`: a status
line (`WriteHeader`) or a body chunk (`Write`). -/
inductive WriteEvent where
  | writeHeader (statusCode : Nat)
  | write (body : Body)
deriving Repr

/-- Whether the event is a status line. -/
def WriteEvent.isStatusLine : WriteEvent → Bool
  | WriteEvent.writeHeader _ => true
  | WriteEvent.write _ => false

/-- Whether the event is a body write. -/
def WriteEvent.isBody : WriteEvent → Bool
  | WriteEvent.writeHeader _ => false
  | WriteEvent.write _ => true

/-- A log call performed through the appengine context (`Errorf`). -/
inductive LogEvent where
  | errorf (format : String)
deriving DecidableEq, Repr

/-- Pagination from src/unnamed/part_003 lines 77-79; `next` is the string
form `p.Next.String()` of the next-page URL. -/
structure Pagination where
  next : String
deriving DecidableEq, Repr

/-- The read view a handler has of the context through its exported API
(`Err`, the response guard's `Header()`, the result/pagination it may have
observed via the value bag, ...). It deliberately excludes the private
`handlers`/`index` fields, which handler code cannot reach. -/
structure CtxView where
  result : Option ResultVal
  errs : List GoErr
  pagination : Option Pagination
  written : Bool
  headers : List (String × String)
deriving Repr

/-- A context API call a handler can perform while running:
`Stop()`, `SetResult(v)` (`nil` allowed), `SetPagination(p)`,
`W().Write(b)`, `W().WriteHeader(s)`, `W().Header().Set(k, v)`. -/
inductive Op where
  | stop
  | setResult (v : Option GoVal)
  | setPagination (p : Option Pagination)
  | write (bytes : String)
  | writeHeader (statusCode : Nat)
  | headerSet (key value : String)
deriving Repr

/-- The observable behaviour of one handler invocation: the ordered API
calls it performs, then the error it returns. -/
structure HandlerEffect where
  ops : List Op
  ret : Option GoErr

/-- HandlerFunc (src/router.go line 10): external code reacting to the
context's observable state. -/
def Handler := CtxView → HandlerEffect

/-- The per-request context state (src/unnamed/part_003 lines 109-123
together with its guarded `responseWriter`): handler chain and cursor,
result slot, accumulated errors, pagination hint, the guard's `written`
flag, and the instrumented write/header/log histories (`invoked` records
which handler indices have been invoked). -/
structure Ctx where
  handlers : List Handler
  index : Nat
  result : Option ResultVal
  errs : List GoErr
  pagination : Option Pagination
  written : Bool
  events : List WriteEvent
  headers : List (String × String)
  logs : List LogEvent
  invoked : List Nat

/-- newContext (src/unnamed/part_003 lines 125-134): fresh cursor, no
result, no errors, no pagination, untouched writer. -/
def newContext (handlers : List Handler) : Ctx :=
  { handlers := handlers, index := 0, result := none, errs := [],
    pagination := none, written := false, events := [], headers := [],
    logs := [], invoked := [] }

/-- The view of the context a handler observes. -/
def Ctx.view (c : Ctx) : CtxView :=
  { result := c.result, errs := c.errs, pagination := c.pagination,
    written := c.written, headers := c.headers }

/-- Applying one context API call to the state. `stop` is `Stop()`
(part_003 lines 194-196: cursor jumps to the chain length); the writer
calls mirror the guarded `responseWriter` (lines 282-289: both `Write` and
`WriteHeader` set the `written` flag). -/
def applyOp (c : Ctx) : Op → Ctx
  | Op.stop => { c with index := c.handlers.length }
  | Op.setResult v => { c with result := v.map ResultVal.user }
  | Op.setPagination p => { c with pagination := p }
  | Op.write b =>
    { c with written := true, events := c.events ++ [WriteEvent.write (Body.raw b)] }
  | Op.writeHeader s =>
    { c with written := true, events := c.events ++ [WriteEvent.writeHeader s] }
  | Op.headerSet k v => { c with headers := c.headers ++ [(k, v)] }

/-- Running a handler's side effects over the state. -/
def applyOps (ops : List Op) (c : Ctx) : Ctx :=
  ops.foldl applyOp c

/-- do (src/unnamed/part_003 lines 198-207): execute the handler; if it
returns an error, append it to `errs` and report `false` (do not
continue), else report `true`. -/
def doHandler (h : Handler) (c : Ctx) : Ctx × Bool :=
  let eff := h c.view
  let c1 := applyOps eff.ops c
  match eff.ret with
  | some err => ({ c1 with errs := c1.errs ++ [err] }, false)
  | none => (c1, true)

/-- Stop (src/unnamed/part_003 lines 194-196 and src/context.go lines
132-134): force the cursor to the chain length. -/
def Ctx.stop (c : Ctx) : Ctx :=
  { c with index := c.handlers.length }

/-- Next of the interface-based context (src/unnamed/part_003 lines
180-192): while the cursor is in range, read the current handler, advance
the cursor, run the handler via `do`; recurse when `do` says to continue,
otherwise `Stop()`. The structural `fuel` argument only bounds the
recursion depth; one unit is consumed per invoked handler, so any fuel
larger than the number of remaining handlers computes the true result. -/
def next : Nat → Ctx → Ctx
  | 0, c => c
  | fuel + 1, c =>
    match c.handlers.get? c.index with
    | none => c
    | some handler =>
      let c1 := { c with index := c.index + 1, invoked := c.invoked ++ [c.index] }
      match doHandler handler c1 with
      | (c2, true) => next fuel c2
      | (c2, false) => c2.stop

/-- Next of the struct-based Context (src/context.go lines 105-120): as
`next`, but after a handler returns no error it additionally consults the
response guard: if `written` is set it calls `Stop()` instead of
recursing. -/
def nextV1 : Nat → Ctx → Ctx
  | 0, c => c
  | fuel + 1, c =>
    match c.handlers.get? c.index with
    | none => c
    | some handler =>
      let c1 := { c with index := c.index + 1, invoked := c.invoked ++ [c.index] }
      let eff := handler c1.view
      let c2 := applyOps eff.ops c1
      match eff.ret with
      | some err => Ctx.stop { c2 with errs := c2.errs ++ [err] }
      | none => if c2.written then c2.stop else nextV1 fuel c2

/-- Err (src/unnamed/part_003 lines 139-148 and src/context.go lines
91-100): nil on no errors, the single error itself on one, the whole
slice (as an `ErrorSlice`) on more. -/
def Ctx.err (c : Ctx) : Option GoErr :=
  match c.errs with
  | [] => none
  | [e] => some e
  | es => some (GoErr.slice es)

/-- An engine-side `w.Header().Set(k, v)` on the guarded writer (does not
touch the written flag). -/
def Ctx.headerSet (c : Ctx) (k v : String) : Ctx :=
  { c with headers := c.headers ++ [(k, v)] }

/-- An engine-side `w.WriteHeader(s)` through the guard: records the status
line and sets the written flag. -/
def Ctx.writeHeader (c : Ctx) (s : Nat) : Ctx :=
  { c with written := true, events := c.events ++ [WriteEvent.writeHeader s] }

/-- An engine-side `w.Write(b)` through the guard: records the body and
sets the written flag. -/
def Ctx.writeBody (c : Ctx) (b : Body) : Ctx :=
  { c with written := true, events := c.events ++ [WriteEvent.write b] }

/-- The `this.Errorf("json.Marshal error of response body: %v", err)` call
in respond (src/unnamed/part_003 line 261). -/
def Ctx.logMarshalError (c : Ctx) : Ctx :=
  { c with logs := c.logs ++ [LogEvent.errorf "json.Marshal error of response body"] }

/-- The message of the 422 validation body (src/unnamed/part_003
line 238). -/
def validationMessage : String := "Validation error. See errors array for details."

/-- The error-inspection block of respond (src/unnamed/part_003 lines
224-256): when `Err()` is non-nil, clear the result (`SetResult(nil)`),
then type-switch: a `*ValidationError` gives status 422 and installs the
validation body struct; a `*Error` gives its own status code and installs
the error object as result when its message is non-empty; anything else
gives 500. When `Err()` is nil, status 200, and a set pagination hint is
emitted as the `X-Pagination-Next` header. Returns the updated context and
the chosen status code. -/
def Ctx.resolveStatus (c : Ctx) : Ctx × Nat :=
  match c.err with
  | some err =>
    let c1 := { c with result := none }
    match err with
    | GoErr.validation fieldErrors =>
      ({ c1 with result := some (ResultVal.validationBody StatusValidationError "multi"
          validationMessage fieldErrors) }, StatusValidationError)
    | GoErr.api statusCode message =>
      (if message ≠ "" then { c1 with result := some (ResultVal.apiError statusCode message) }
        else c1, statusCode)
    | _ => (c1, 500)
  | none =>
    let c1 :=
      match c.pagination with
      | some p => c.headerSet "X-Pagination-Next" p.next
      | none => c
    (c1, 200)

/-- respond (src/unnamed/part_003 lines 215-270): if the guard saw a direct
write, do nothing. Otherwise resolve the status and result from `Err()`,
set `Content-Type: application/json`, and: if a result is set, marshal it
— on failure log and write status 500 with no body, on success write the
status line and the JSON body; if no result is set, write only the status
line. -/
def Ctx.respond (c : Ctx) : Ctx :=
  if c.written then c
  else
    let rs := c.resolveStatus
    let c1 := rs.1.headerSet "Content-Type" "application/json"
    match c1.result with
    | some v =>
      match marshal v with
      | none => c1.logMarshalError.writeHeader 500
      | some b => (c1.writeHeader rs.2).writeBody (Body.json b)
    | none => c1.writeHeader rs.2

/-- The write events that respond itself emitted (everything it appended to
the underlying writer's history). -/
def respondEvents (c : Ctx) : List WriteEvent :=
  c.respond.events.drop c.events.length

/-- The response headers that respond itself set. -/
def respondHeaders (c : Ctx) : List (String × String) :=
  c.respond.headers.drop c.headers.length

/-- The log entries that respond itself emitted. -/
def respondLogs (c : Ctx) : List LogEvent :=
  c.respond.logs.drop c.logs.length

/-- Whether the result slot (if occupied) holds a value `json.Marshal`
accepts. -/
def resultMarshals : Option ResultVal → Bool
  | none => true
  | some v => (marshal v).isSome

/-- httprouter.Params.ByName: the value of the first matched path parameter
with the given key, or `""` when the key is absent. -/
def byName (pathParams : List (String × String)) (key : String) : String :=
  match pathParams.find? (fun kv => kv.1 == key) with
  | some kv => kv.2
  | none => ""

/-- url.Values.Get on the parsed query string: the first value associated
with the key, or `""` when the key is absent. -/
def queryGet (query : List (String × String)) (key : String) : String :=
  match query.find? (fun kv => kv.1 == key) with
  | some kv => kv.2
  | none => ""

/-- Params (src/unnamed/part_002 lines 14-17): the matched path parameters
and the request's parsed query string. -/
structure ParamsAcc where
  pathParams : List (String × String)
  query : List (String × String)
deriving DecidableEq, Repr

/-- Params.Get (src/unnamed/part_002 lines 19-27, identical to params.Get
in src/unnamed/part_001 lines 17-25): if `p.ByName(key)` is non-empty
return it, else fall back to the query string. -/
def ParamsAcc.get (p : ParamsAcc) (key : String) : String :=
  let val := byName p.pathParams key
  if val ≠ "" then val else queryGet p.query key

/-- Router (src/router.go lines 14-20): the optional `CreateContext` hook
(modelled by the name of the installed function), whether this router owns
an httprouter instance (`r != nil`; true for `NewRouter()` roots, false
for `SubRouter` children), the optional parent, the path prefix, and this
router's own middleware (modelled by handler names). -/
inductive GoRouter where
  | mk (createContext : Option String) (hasHTTPRouter : Bool)
      (parent : Option GoRouter) (path : String) (mw : List String)

/-- createContext (src/router.go lines 56-64): use this router's hook if
set, else ask the parent; with no hook anywhere in the chain the program
panics ("No CreateContext func is set"), modelled by `none`. -/
def GoRouter.createContextFn : GoRouter → Option String
  | GoRouter.mk (some f) _ _ _ _ => some f
  | GoRouter.mk none _ (some p) _ _ => p.createContextFn
  | GoRouter.mk none _ none _ _ => none

/-- router (src/router.go lines 39-45): this router's httprouter if it has
one, else the parent's; with no parent and no httprouter the nil-pointer
dereference panics, modelled by `none`. -/
def GoRouter.routerResolve : GoRouter → Option Unit
  | GoRouter.mk _ true _ _ _ => some ()
  | GoRouter.mk _ false (some p) _ _ => p.routerResolve
  | GoRouter.mk _ false none _ _ => none

/-- middleware (src/router.go lines 47-54): the parent's middleware
(recursively) followed by this router's own. -/
def GoRouter.middleware : GoRouter → List String
  | GoRouter.mk _ _ (some p) _ mwL => p.middleware ++ mwL
  | GoRouter.mk _ _ none _ mwL => mwL

/-- The handle that route registration installs in the httprouter
(src/router.go lines 96-105): `wrap` closes over the *method value*
`this.createContext` — hook resolution is deferred to request time — and
over the flattened handler chain. -/
structure RegisteredHandle where
  owner : GoRouter
  chain : List String

/-- route (src/router.go lines 74-81): flatten inherited middleware with
the route's handlers and register `wrap(this.createContext, fns...)` on
the resolved httprouter. Registration itself never calls the hook; it
fails (`none`) only when no httprouter is reachable. -/
def GoRouter.route (r : GoRouter) (handlers : List String) : Option RegisteredHandle :=
  let fns := r.middleware ++ handlers
  match r.routerResolve with
  | some _ => some { owner := r, chain := fns }
  | none => none

/-- Dispatching a registered handle (the closure built by wrap,
src/router.go lines 97-104): first `createContext(r)` runs — panicking
(`none`) when no hook is configured anywhere in the owner's ancestor
chain — then the context is created and the chain runs. -/
def RegisteredHandle.dispatch (h : RegisteredHandle) : Option (List String) :=
  match h.owner.createContextFn with
  | some _ => some h.chain
  | none => none

/-- A single context API call never touches the instrumentation trace. -/
theorem applyOp_invoked (c : Ctx) (op : Op) : (applyOp c op).invoked = c.invoked := by
  cases op <;> rfl

/-- A single context API call never touches the accumulated errors. -/
theorem applyOp_errs (c : Ctx) (op : Op) : (applyOp c op).errs = c.errs := by
  cases op <;> rfl

/-- A single context API call never touches the handler chain. -/
theorem applyOp_handlers (c : Ctx) (op : Op) : (applyOp c op).handlers = c.handlers := by
  cases op <;> rfl

/-- Handler side effects never touch the instrumentation trace. -/
theorem applyOps_invoked (ops : List Op) (c : Ctx) : (applyOps ops c).invoked = c.invoked := by
  induction ops generalizing c with
  | nil => rfl
  | cons op rest ih => simpa [applyOps, List.foldl, applyOp_invoked] using ih (applyOp c op)

/-- Handler side effects never touch the accumulated errors. -/
theorem applyOps_errs (ops : List Op) (c : Ctx) : (applyOps ops c).errs = c.errs := by
  induction ops generalizing c with
  | nil => rfl
  | cons op rest ih => simpa [applyOps, List.foldl, applyOp_errs] using ih (applyOp c op)

/-- Handler side effects never touch the handler chain. -/
theorem applyOps_handlers (ops : List Op) (c : Ctx) : (applyOps ops c).handlers = c.handlers := by
  induction ops generalizing c with
  | nil => rfl
  | cons op rest ih => simpa [applyOps, List.foldl, applyOp_handlers] using ih (applyOp c op)

/-- String.join distributes over cons. -/
theorem stringJoin_cons (s : String) (l : List String) :
    String.join (s :: l) = s ++ String.join l := by
  have helper : ∀ (l : List String) (a b : String),
      l.foldl (fun r x => r ++ x) (a ++ b) = a ++ l.foldl (fun r x => r ++ x) b := by
    intro l
    induction l with
    | nil => intro a b; rfl
    | cons x xs ih =>
      intro a b
      simp only [List.foldl]
      rw [String.append_assoc]
      exact ih a (b ++ x)
  show (s :: l).foldl (fun r x => r ++ x) "" = s ++ l.foldl (fun r x => r ++ x) ""
  simp only [List.foldl]
  rw [show ("" : String) ++ s = s ++ "" by simp]
  exact helper l s ""

/-- The indexed concatenation loop of `ErrorSlice.Error` as an explicit
join: entry `i` (0-based) of the list contributes `"Error #(n+i)\n"`, its
message, and a newline. -/
theorem errorStringFrom_eq_join (es : List GoErr) (n : Nat) :
    GoErr.errorStringFrom n es =
      String.join (es.mapIdx fun i e =>
        "Error #" ++ toString (n + i) ++ "\n" ++ e.errorString ++ "\n") := by
  induction es generalizing n with
  | nil => simp [GoErr.errorStringFrom, String.join]
  | cons e rest ih =>
    have hfun :
        (fun i (x : GoErr) =>
            "Error #" ++ toString (n + (i + 1)) ++ "\n" ++ x.errorString ++ "\n")
          = (fun i (x : GoErr) =>
            "Error #" ++ toString (n + 1 + i) ++ "\n" ++ x.errorString ++ "\n") := by
      funext i x
      have h : n + (i + 1) = n + 1 + i := by omega
      rw [h]
    rw [GoErr.errorStringFrom, List.mapIdx_cons, stringJoin_cons, ih (n + 1), hfun]
    simp [String.append_assoc]


/-- C6: Err() returns nil when zero errors were recorded, returns the
identical single error value when exactly one was recorded, and when two
or more were recorded returns the aggregate ErrorSlice, whose message
lists each constituent error's message in recorded order, each prefixed
with its 1-based index. -/
theorem claim_C6_err_aggregation (c : Ctx) :
    (c.errs = [] → c.err = none)
    ∧ (∀ e, c.errs = [e] → c.err = some e)
    ∧ (2 ≤ c.errs.length →
        c.err = some (GoErr.slice c.errs)
        ∧ (GoErr.slice c.errs).errorString =
            "Multiple handlers returned error:\n" ++
              String.join (c.errs.mapIdx fun i e =>
                "Error #" ++ toString (i + 1) ++ "\n" ++ e.errorString ++ "\n")) := by
  refine ⟨?_, ?_, ?_⟩
  · intro h
    simp [Ctx.err, h]
  · intro e h
    simp [Ctx.err, h]
  · intro h
    rcases hes : c.errs with _ | ⟨a, _ | ⟨b, rest⟩⟩
    · rw [hes] at h; simp at h
    · rw [hes] at h; simp at h
    · have hidx :
          (fun i (e : GoErr) =>
              "Error #" ++ toString (1 + i) ++ "\n" ++ e.errorString ++ "\n")
            = (fun i (e : GoErr) =>
              "Error #" ++ toString (i + 1) ++ "\n" ++ e.errorString ++ "\n") := by
        funext i e
        rw [Nat.add_comm 1 i]
      constructor
      · simp [Ctx.err, hes]
      · simp only [GoErr.errorString]
        rw [errorStringFrom_eq_join, hidx]

/-- Concrete context with two recorded handler errors, for the C6
witness. -/
def c6w : Ctx := { newContext [] with errs := [GoErr.other "boom", ErrNotFound] }

/-- C6 witness: the aggregation behaviour evaluated on a context holding
two recorded errors. -/
theorem claim_C6_witness :
    2 ≤ c6w.errs.length
    ∧ (c6w.err = some (GoErr.slice c6w.errs)
        ∧ (GoErr.slice c6w.errs).errorString =
            "Multiple handlers returned error:\n" ++
              String.join (c6w.errs.mapIdx fun i e =>
                "Error #" ++ toString (i + 1) ++ "\n" ++ e.errorString ++ "\n")) :=
  ⟨by decide, (claim_C6_err_aggregation c6w).2.2 (by decide)⟩

/-- C10: path-parameter shadowing applies only when the matched path
parameter's value is non-empty; Params.Get falls back to the query string
whenever ByName yields the empty string (key absent or present with empty
value), so a present-but-empty path parameter never masks a query
parameter. -/
theorem claim_C10_param_shadowing (p : ParamsAcc) (key : String) :
    (byName p.pathParams key = "" → p.get key = queryGet p.query key)
    ∧ (byName p.pathParams key ≠ "" → p.get key = byName p.pathParams key) := by
  constructor
  · intro h
    simp [ParamsAcc.get, h]
  · intro h
    simp [ParamsAcc.get, h]

/-- Concrete accessor with a present-but-empty path parameter and a query
parameter under the same key, for the C10 witness. -/
def p10 : ParamsAcc := ⟨[("id", "")], [("id", "9")]⟩

/-- C10 witness: the present-but-empty path parameter `id` does not mask
the query parameter `id=9`. -/
theorem claim_C10_witness :
    byName p10.pathParams "id" = "" ∧ p10.get "id" = queryGet p10.query "id" :=
  ⟨rfl, (claim_C10_param_shadowing p10 "id").1 rfl⟩

/-- Router with no CreateContext hook anywhere in its (empty) ancestor
chain but with an httprouter instance — e.g. a `NewRouter()` whose public
CreateContext field was cleared. -/
def r9 : GoRouter := GoRouter.mk none true none "" []

/-- C9 counterexample: with no CreateContext hook configured anywhere,
registering a route does NOT abort — registration succeeds and returns a
handle — and the fatal "No CreateContext func is set" panic instead
happens at request-dispatch time. -/
theorem claim_C9_counterexample :
    r9.createContextFn = none
    ∧ r9.route ["handler"] = some { owner := r9, chain := ["handler"] }
    ∧ RegisteredHandle.dispatch { owner := r9, chain := ["handler"] } = none :=
  ⟨rfl, rfl, rfl⟩

/-- C9 amended: if no CreateContext hook is configured on a router or any
ancestor, registration still succeeds whenever an httprouter instance is
reachable (`wrap` captures the unevaluated method value), and every handle
it registers aborts with the fatal configuration panic at request-dispatch
time. -/
theorem claim_C9_amended (r : GoRouter) (handlers : List String)
    (hnone : r.createContextFn = none) :
    (r.routerResolve.isSome = true → (r.route handlers).isSome = true)
    ∧ (r.route handlers).bind RegisteredHandle.dispatch = none := by
  cases hr : r.routerResolve with
  | some u =>
    constructor
    · intro _
      simp [GoRouter.route, hr]
    · simp [GoRouter.route, hr, RegisteredHandle.dispatch, hnone]
  | none =>
    constructor
    · intro h
      simp at h
    · simp [GoRouter.route, hr]

/-- C9 witness: the amended behaviour evaluated on the concrete hookless
router. -/
theorem claim_C9_witness :
    (r9.route ["h"]).isSome = true
    ∧ (r9.route ["h"]).bind RegisteredHandle.dispatch = none :=
  ⟨(claim_C9_amended r9 ["h"] rfl).1 rfl, (claim_C9_amended r9 ["h"] rfl).2⟩

/-- The error-inspection block never writes to the underlying writer. -/
theorem resolveStatus_events (c : Ctx) : (Ctx.resolveStatus c).1.events = c.events := by
  unfold Ctx.resolveStatus
  cases c.err with
  | none => cases c.pagination <;> simp [Ctx.headerSet]
  | some e =>
    cases e with
    | api sc m => by_cases hm : m = "" <;> simp [hm]
    | validation fes => rfl
    | slice es => rfl
    | other m => rfl

/-- The error-inspection block never logs. -/
theorem resolveStatus_logs (c : Ctx) : (Ctx.resolveStatus c).1.logs = c.logs := by
  unfold Ctx.resolveStatus
  cases c.err with
  | none => cases c.pagination <;> simp [Ctx.headerSet]
  | some e =>
    cases e with
    | api sc m => by_cases hm : m = "" <;> simp [hm]
    | validation fes => rfl
    | slice es => rfl
    | other m => rfl

/-- When `Err()` is non-nil the error-inspection block sets no headers (the
pagination header belongs to the success branch only). -/
theorem resolveStatus_headers_of_err (c : Ctx) (e : GoErr) (he : c.err = some e) :
    (Ctx.resolveStatus c).1.headers = c.headers := by
  unfold Ctx.resolveStatus
  rw [he]
  cases e with
  | api sc m => by_cases hm : m = "" <;> simp [hm]
  | validation fes => rfl
  | slice es => rfl
  | other m => rfl

/-- Unfolding of respond when the guard saw no direct write, with the two
inner lets resolved. -/
theorem respond_decomp (c : Ctx) (hw : c.written = false) :
    c.respond =
      match (Ctx.resolveStatus c).1.result with
      | some v =>
        match marshal v with
        | none =>
          (((Ctx.resolveStatus c).1.headerSet "Content-Type"
            "application/json").logMarshalError).writeHeader 500
        | some b =>
          ((((Ctx.resolveStatus c).1.headerSet "Content-Type"
            "application/json")).writeHeader (Ctx.resolveStatus c).2).writeBody (Body.json b)
      | none =>
        ((Ctx.resolveStatus c).1.headerSet "Content-Type"
          "application/json").writeHeader (Ctx.resolveStatus c).2 := by
  simp only [Ctx.respond, hw, Bool.false_eq_true, if_false, Ctx.headerSet]

/-- The write events respond emits when the single recorded error is an
`*Error` with status S: the status line S, plus the error object as JSON
body exactly when its message is non-empty. -/
theorem respond_api_events (c : Ctx) (S : Nat) (msg : String)
    (hw : c.written = false) (he : c.errs = [GoErr.api S msg]) :
    respondEvents c =
      if msg = "" then [WriteEvent.writeHeader S]
      else [WriteEvent.writeHeader S,
        WriteEvent.write (Body.json (ResultVal.apiError S msg))] := by
  have herr : c.err = some (GoErr.api S msg) := by simp [Ctx.err, he]
  by_cases hm : msg = ""
  · subst hm
    simp [respondEvents, respond_decomp c hw, Ctx.resolveStatus, herr, Ctx.headerSet,
      Ctx.writeHeader, Ctx.writeBody, marshal, List.drop_left]
  · simp [respondEvents, respond_decomp c hw, Ctx.resolveStatus, herr, Ctx.headerSet,
      Ctx.writeHeader, Ctx.writeBody, marshal, hm, List.drop_left]

/-- C5: when the accumulated error resolves to a StatusError (`*Error`),
the resolution policy writes the error's carried status code, and writes
the error object as JSON body if and only if its message is non-empty;
with an empty message (e.g. the ErrNotFound singleton) only the bare
status line is written. -/
theorem claim_C5_status_error_response (c : Ctx) (S : Nat) (msg : String)
    (hw : c.written = false) (he : c.errs = [GoErr.api S msg]) :
    (msg = "" → respondEvents c = [WriteEvent.writeHeader S])
    ∧ (msg ≠ "" → respondEvents c = [WriteEvent.writeHeader S,
        WriteEvent.write (Body.json (ResultVal.apiError S msg))]) := by
  have hevs := respond_api_events c S msg hw he
  constructor
  · intro hm
    rw [hevs, if_pos hm]
  · intro hm
    rw [hevs, if_neg hm]

/-- Concrete context whose single recorded error is the ErrNotFound
singleton, for the C5 witness. -/
def c5w : Ctx := { newContext [] with errs := [ErrNotFound] }

/-- C5 witness: a handler that returned the not-found singleton (empty
message) yields a bare 404 status line and no body. -/
theorem claim_C5_witness :
    c5w.errs = [ErrNotFound]
    ∧ respondEvents c5w = [WriteEvent.writeHeader 404] :=
  ⟨rfl, (claim_C5_status_error_response c5w 404 "" rfl rfl).1 rfl⟩

/-- Context holding a ValidationError one of whose field errors carries
data `json.Marshal` rejects (e.g. a channel), for the C4 counterexample. -/
def c4cex : Ctx := { newContext [] with errs := [GoErr.validation
  [{ fieldName := "a", errorCode := "x", message := "", data := some GoVal.unjsonable }]] }

/-- C4 counterexample: an accumulated ValidationError whose field-error
data is unserializable makes `json.Marshal` of the 422 body fail, so the
resolution policy writes status 500 and no body — not 422 with the JSON
validation body the claim promises for every such request. -/
theorem claim_C4_counterexample :
    c4cex.written = false
    ∧ c4cex.errs = [GoErr.validation
        [{ fieldName := "a", errorCode := "x", message := "", data := some GoVal.unjsonable }]]
    ∧ respondEvents c4cex = [WriteEvent.writeHeader 500]
    ∧ (500 : Nat) ≠ 422 :=
  ⟨rfl, rfl, rfl, by decide⟩

/-- C4 amended: when the accumulated error resolves to a ValidationError
whose field errors all carry serializable data, the resolution policy
writes status 422, replaces any previously set result with the validation
body struct, and writes that struct — statusCode 422, errorCode "multi",
the fixed validation message, and the field-error list verbatim — as the
JSON body. (If some field data is unserializable, the serialization
failure instead forces status 500 with no body.) -/
theorem claim_C4_amended (c : Ctx) (fes : List FieldError)
    (hw : c.written = false)
    (he : c.errs = [GoErr.validation fes])
    (hser : fes.all FieldError.serializable = true) :
    respondEvents c = [WriteEvent.writeHeader 422,
      WriteEvent.write (Body.json (ResultVal.validationBody 422 "multi" validationMessage fes))]
    ∧ c.respond.result =
        some (ResultVal.validationBody 422 "multi" validationMessage fes) := by
  have herr : c.err = some (GoErr.validation fes) := by simp [Ctx.err, he]
  constructor
  · simp [respondEvents, respond_decomp c hw, Ctx.resolveStatus, herr, StatusValidationError,
      Ctx.headerSet, Ctx.writeHeader, Ctx.writeBody, marshal, hser, List.drop_left]
  · simp [respond_decomp c hw, Ctx.resolveStatus, herr, StatusValidationError,
      Ctx.headerSet, Ctx.writeHeader, Ctx.writeBody, marshal, hser]

/-- Concrete context holding a ValidationError with the single field error
`{key: "name", errorCode: "required"}`, for the C4 witness. -/
def c4w : Ctx := { newContext [] with errs := [GoErr.validation
  [{ fieldName := "name", errorCode := "required", message := "", data := none }]] }

/-- C4 witness: the amended 422 behaviour evaluated on a ValidationError
with one serializable field error. -/
theorem claim_C4_witness :
    c4w.errs = [GoErr.validation
      [{ fieldName := "name", errorCode := "required", message := "", data := none }]]
    ∧ (respondEvents c4w = [WriteEvent.writeHeader 422,
        WriteEvent.write (Body.json (ResultVal.validationBody 422 "multi" validationMessage
          [{ fieldName := "name", errorCode := "required", message := "", data := none }]))]
      ∧ c4w.respond.result =
          some (ResultVal.validationBody 422 "multi" validationMessage
            [{ fieldName := "name", errorCode := "required", message := "", data := none }])) :=
  ⟨rfl, claim_C4_amended c4w
    [{ fieldName := "name", errorCode := "required", message := "", data := none }]
    rfl rfl rfl⟩

/-- C3: the resolution policy writes exactly one response — if any handler
has already written directly to the guarded writer, respond performs no
writes at all; otherwise respond writes exactly one status line and at
most one body. -/
theorem claim_C3_single_response (c : Ctx) :
    (c.written = true → respondEvents c = [])
    ∧ (c.written = false →
        (respondEvents c).countP (fun e => WriteEvent.isStatusLine e) = 1
        ∧ (respondEvents c).countP (fun e => WriteEvent.isBody e) ≤ 1) := by
  constructor
  · intro hw
    simp [respondEvents, Ctx.respond, hw, List.drop_length]
  · intro hw
    rw [show respondEvents c = c.respond.events.drop c.events.length from rfl,
      respond_decomp c hw]
    cases hres : (Ctx.resolveStatus c).1.result with
    | none =>
      simp [hres, Ctx.headerSet, Ctx.writeHeader, resolveStatus_events, List.drop_left,
        WriteEvent.isStatusLine, WriteEvent.isBody]
    | some v =>
      cases hm : marshal v with
      | none =>
        simp [hres, hm, Ctx.headerSet, Ctx.writeHeader, Ctx.logMarshalError,
          resolveStatus_events, List.drop_left, WriteEvent.isStatusLine, WriteEvent.isBody]
      | some b =>
        simp [hres, hm, Ctx.headerSet, Ctx.writeHeader, Ctx.writeBody, resolveStatus_events,
          List.drop_left, WriteEvent.isStatusLine, WriteEvent.isBody]

/-- Fresh context with an empty chain, for the C3 witness. -/
def c3w : Ctx := newContext []

/-- C3 witness: on an untouched writer the policy emits exactly one status
line and at most one body. -/
theorem claim_C3_witness :
    (respondEvents c3w).countP (fun e => WriteEvent.isStatusLine e) = 1
    ∧ (respondEvents c3w).countP (fun e => WriteEvent.isBody e) ≤ 1 :=
  (claim_C3_single_response c3w).2 rfl

/-- respond always stamps `Content-Type: application/json` after the
error-inspection block's headers, in every branch. -/
theorem respond_headers (c : Ctx) (hw : c.written = false) :
    c.respond.headers =
      (Ctx.resolveStatus c).1.headers ++ [("Content-Type", "application/json")] := by
  rw [respond_decomp c hw]
  cases hres : (Ctx.resolveStatus c).1.result with
  | none => simp [hres, Ctx.headerSet, Ctx.writeHeader]
  | some v =>
    cases hm : marshal v with
    | none => simp [hres, hm, Ctx.headerSet, Ctx.writeHeader, Ctx.logMarshalError]
    | some b => simp [hres, hm, Ctx.headerSet, Ctx.writeHeader, Ctx.writeBody]

/-- marshal never rewrites the value: when it succeeds it returns its
argument unchanged. -/
theorem marshal_eq_of_isSome (v : ResultVal) (h : (marshal v).isSome = true) :
    marshal v = some v := by
  cases v with
  | user g => cases g <;> simp [marshal] at h ⊢
  | validationBody sc ec m fes =>
    by_cases hall : fes.all FieldError.serializable
    · simp [marshal, hall]
    · simp [marshal, hall] at h
  | apiError sc m => simp [marshal]

/-- Context with a result value `json.Marshal` rejects and no errors, for
the C7 counterexample. -/
def c7cex : Ctx := { newContext [] with result := some (ResultVal.user GoVal.unjsonable) }

/-- C7 counterexample: a request with no recorded errors and no direct
write whose handler-set result is unserializable — the resolution policy
writes status 500, not the 200 the claim promises for every such
request. -/
theorem claim_C7_counterexample :
    c7cex.errs = []
    ∧ c7cex.written = false
    ∧ respondEvents c7cex = [WriteEvent.writeHeader 500]
    ∧ (500 : Nat) ≠ 200 :=
  ⟨rfl, rfl, rfl, by decide⟩

/-- C7 amended: on a request with no recorded errors and no direct write,
the resolution policy writes status 200 provided the result (if any)
serializes — an unserializable result instead forces 500 per the
serialization-failure rule — and, whenever a pagination hint is set, it
emits the `X-Pagination-Next` header carrying the hint's string form
(even in the serialization-failure case); on any request with a recorded
error the policy emits no pagination header. -/
theorem claim_C7_success_pagination (c d : Ctx) (p : Pagination)
    (hw : c.written = false) (he : c.errs = [])
    (hp : c.pagination = some p)
    (hderr : d.errs ≠ []) :
    (resultMarshals c.result = true → WriteEvent.writeHeader 200 ∈ respondEvents c)
    ∧ ("X-Pagination-Next", p.next) ∈ respondHeaders c
    ∧ (respondHeaders d).all (fun kv => kv.1 ≠ "X-Pagination-Next") = true := by
  have herr : c.err = none := by simp [Ctx.err, he]
  have hrs : Ctx.resolveStatus c = (c.headerSet "X-Pagination-Next" p.next, 200) := by
    simp [Ctx.resolveStatus, herr, hp]
  refine ⟨?_, ?_, ?_⟩
  · intro hm
    rw [show respondEvents c = c.respond.events.drop c.events.length from rfl,
      respond_decomp c hw]
    cases hcr : c.result with
    | none =>
      simp [hrs, hcr, Ctx.headerSet, Ctx.writeHeader, List.drop_left]
    | some v =>
      have hms : (marshal v).isSome = true := by
        have := hm
        rw [hcr] at this
        simpa [resultMarshals] using this
      simp [hrs, hcr, marshal_eq_of_isSome v hms, Ctx.headerSet, Ctx.writeHeader,
        Ctx.writeBody, List.drop_left]
  · rw [show respondHeaders c = c.respond.headers.drop c.headers.length from rfl,
      respond_headers c hw, hrs]
    simp [Ctx.headerSet, List.drop_left]
  · cases hdw : d.written with
    | true =>
      rw [show respondHeaders d = d.respond.headers.drop d.headers.length from rfl]
      simp [Ctx.respond, hdw, List.drop_length]
    | false =>
      obtain ⟨e, hde⟩ : ∃ e, d.err = some e := by
        rcases hds : d.errs with _ | ⟨e0, rest⟩
        · exact absurd hds hderr
        · rcases rest with _ | ⟨e1, rest2⟩
          · exact ⟨e0, by simp [Ctx.err, hds]⟩
          · exact ⟨GoErr.slice (e0 :: e1 :: rest2), by simp [Ctx.err, hds]⟩
      rw [show respondHeaders d = d.respond.headers.drop d.headers.length from rfl,
        respond_headers d hdw, resolveStatus_headers_of_err d e hde]
      simp [List.drop_left]

/-- Context with a pagination hint set, no errors, no result, for the C7
witness. -/
def c7w : Ctx := { newContext [] with pagination := some { next := "/items?page=2" } }

/-- Context with one recorded unclassified error, for the C7 witness's
no-pagination-on-error part. -/
def d7w : Ctx := { newContext [] with errs := [GoErr.other "boom"] }

/-- Context with a pagination hint set, no errors, and an unserializable
result, for the C7 witness's serialization-failure part. -/
def c7wf : Ctx :=
  { newContext [] with
      pagination := some (Pagination.mk "/items?page=2")
      result := some (ResultVal.user GoVal.unjsonable) }

/-- C7 witness: the amended success/pagination behaviour evaluated on a
paginated success request, a paginated request whose result fails to
serialize (status 500, pagination header still emitted), and an errored
request (no pagination header). -/
theorem claim_C7_witness :
    WriteEvent.writeHeader 200 ∈ respondEvents c7w
    ∧ ("X-Pagination-Next", "/items?page=2") ∈ respondHeaders c7w
    ∧ ("X-Pagination-Next", "/items?page=2") ∈ respondHeaders c7wf
    ∧ respondEvents c7wf = [WriteEvent.writeHeader 500]
    ∧ (respondHeaders d7w).all (fun kv => kv.1 ≠ "X-Pagination-Next") = true :=
  ⟨(claim_C7_success_pagination c7w d7w { next := "/items?page=2" } rfl rfl rfl
      (by simp [d7w, newContext])).1 rfl,
    (claim_C7_success_pagination c7w d7w { next := "/items?page=2" } rfl rfl rfl
      (by simp [d7w, newContext])).2.1,
    (claim_C7_success_pagination c7wf d7w { next := "/items?page=2" } rfl rfl rfl
      (by simp [d7w, newContext])).2.1,
    rfl,
    (claim_C7_success_pagination c7w d7w { next := "/items?page=2" } rfl rfl rfl
      (by simp [d7w, newContext])).2.2⟩

/-- C8: after the error-inspection step, if a result value is set the
policy serializes it to JSON and writes it as the body; a serialization
failure is logged and forces status 500 with no body, regardless of the
status the error-inspection step chose. -/
theorem claim_C8_result_serialization (c : Ctx) (v : ResultVal)
    (hw : c.written = false)
    (hres : (Ctx.resolveStatus c).1.result = some v) :
    (marshal v = none →
      respondEvents c = [WriteEvent.writeHeader 500]
      ∧ respondLogs c = [LogEvent.errorf "json.Marshal error of response body"])
    ∧ ((marshal v).isSome = true →
      respondEvents c = [WriteEvent.writeHeader (Ctx.resolveStatus c).2,
        WriteEvent.write (Body.json v)]) := by
  constructor
  · intro hmn
    constructor
    · rw [show respondEvents c = c.respond.events.drop c.events.length from rfl,
        respond_decomp c hw]
      simp [hres, hmn, Ctx.headerSet, Ctx.writeHeader, Ctx.logMarshalError,
        resolveStatus_events, List.drop_left]
    · rw [show respondLogs c = c.respond.logs.drop c.logs.length from rfl,
        respond_decomp c hw]
      simp [hres, hmn, Ctx.headerSet, Ctx.writeHeader, Ctx.logMarshalError,
        resolveStatus_logs, List.drop_left]
  · intro hms
    rw [show respondEvents c = c.respond.events.drop c.events.length from rfl,
      respond_decomp c hw]
    simp [hres, marshal_eq_of_isSome v hms, Ctx.headerSet, Ctx.writeHeader, Ctx.writeBody,
      resolveStatus_events, List.drop_left]

/-- Context whose handler set an unserializable result, for the C8
witness. -/
def c8w : Ctx := { newContext [] with result := some (ResultVal.user GoVal.unjsonable) }

/-- C8 witness: the serialization-failure path evaluated on an
unserializable result value — the failure is logged and 500 is written
with no body. -/
theorem claim_C8_witness :
    marshal (ResultVal.user GoVal.unjsonable) = none
    ∧ (respondEvents c8w = [WriteEvent.writeHeader 500]
      ∧ respondLogs c8w = [LogEvent.errorf "json.Marshal error of response body"]) :=
  ⟨rfl, (claim_C8_result_serialization c8w (ResultVal.user GoVal.unjsonable) rfl rfl).1 rfl⟩

/-- Whether every status line in the event list carries the given status
code. -/
def allStatusLinesEq (evs : List WriteEvent) (S : Nat) : Bool :=
  evs.all fun e =>
    match e with
    | WriteEvent.writeHeader s => s == S
    | WriteEvent.write _ => true

/-- C2: when the chain's cursor reaches handler Hk with no error recorded
and no direct write so far, and Hk returns a non-nil `*Error` carrying
status S, then no handler beyond Hk is ever invoked, the error is appended
to the accumulated error list (which becomes exactly that error), and
every status line the resolution policy writes carries S. -/
theorem claim_C2_status_error_short_circuit (c : Ctx) (h : Handler) (S : Nat)
    (msg : String) (fuel : Nat)
    (hget : c.handlers.get? c.index = some h)
    (herrs : c.errs = [])
    (_hwr : c.written = false)
    (hret : (h c.view).ret = some (GoErr.api S msg)) :
    (next (fuel + 1) c).invoked = c.invoked ++ [c.index]
    ∧ (next (fuel + 1) c).errs = [GoErr.api S msg]
    ∧ allStatusLinesEq (respondEvents (next (fuel + 1) c)) S = true := by
  have hview : Ctx.view { c with index := c.index + 1, invoked := c.invoked ++ [c.index] }
      = c.view := rfl
  have hnext : next (fuel + 1) c =
      Ctx.stop { applyOps (h c.view).ops
          { c with index := c.index + 1, invoked := c.invoked ++ [c.index] } with
        errs := (applyOps (h c.view).ops
          { c with index := c.index + 1, invoked := c.invoked ++ [c.index] }).errs
            ++ [GoErr.api S msg] } := by
    rw [next, hget]
    simp only [doHandler, hview, hret]
  have hinv : (next (fuel + 1) c).invoked = c.invoked ++ [c.index] := by
    rw [hnext]
    simp [Ctx.stop, applyOps_invoked]
  have herr2 : (next (fuel + 1) c).errs = [GoErr.api S msg] := by
    rw [hnext]
    simp [Ctx.stop, applyOps_errs, herrs]
  refine ⟨hinv, herr2, ?_⟩
  cases hw2 : (next (fuel + 1) c).written with
  | true =>
    have : respondEvents (next (fuel + 1) c) = [] := by
      simp [respondEvents, Ctx.respond, hw2, List.drop_length]
    simp [this, allStatusLinesEq]
  | false =>
    rw [respond_api_events (next (fuel + 1) c) S msg hw2 herr2]
    by_cases hmsg : msg = "" <;> simp [hmsg, allStatusLinesEq]

/-- Handler that returns a 418 StatusError, for the C2 witness. -/
def h2err : Handler := fun _ => { ops := [], ret := some (GoErr.api 418 "teapot") }

/-- Probe handler recording nothing, for the C2 witness chain tail. -/
def h2probe : Handler := fun _ => { ops := [], ret := none }

/-- Two-handler chain whose first handler errors, for the C2 witness. -/
def c2w : Ctx := newContext [h2err, h2probe]

/-- C2 witness: the short-circuit behaviour evaluated on a chain whose
first handler returns a 418 StatusError — the second handler never runs
and the policy's status line is 418. -/
theorem claim_C2_witness :
    (h2err c2w.view).ret = some (GoErr.api 418 "teapot")
    ∧ ((next 2 c2w).invoked = c2w.invoked ++ [c2w.index]
      ∧ (next 2 c2w).errs = [GoErr.api 418 "teapot"]
      ∧ allStatusLinesEq (respondEvents (next 2 c2w)) 418 = true) :=
  ⟨rfl, claim_C2_status_error_short_circuit c2w h2err 418 "teapot" 1 rfl rfl rfl rfl⟩

/-- C1 counterexample (against the interface-based context of
src/unnamed/part_003): its `Next` consults only the handler's returned
error, not the response guard — after handler 0 writes directly to the
guarded writer and returns nil, the chain does NOT stop: handler 1 is
invoked as well. -/
theorem claim_C1_counterexample :
    ((fun _ => { ops := [Op.write "done"], ret := none } : Handler)
        (newContext [(fun _ => { ops := [Op.write "done"], ret := none } : Handler),
          (fun _ => { ops := [], ret := none } : Handler)]).view).ret = none
    ∧ (next 1 (newContext [(fun _ => { ops := [Op.write "done"], ret := none } : Handler),
        (fun _ => { ops := [], ret := none } : Handler)])).written = true
    ∧ (next 1 (newContext [(fun _ => { ops := [Op.write "done"], ret := none } : Handler),
        (fun _ => { ops := [], ret := none } : Handler)])).errs = []
    ∧ (next 3 (newContext [(fun _ => { ops := [Op.write "done"], ret := none } : Handler),
        (fun _ => { ops := [], ret := none } : Handler)])).invoked = [0, 1] :=
  ⟨rfl, rfl, rfl, rfl⟩

/-- C1 amended: the stated behaviour holds for the struct-based Context's
Next (src/context.go): when the handler at the cursor returns no error but
the guard's written flag is set after it ran, the context jumps to the
chain's end (Exhausted) and no further handler is invoked. (The
interface-based context of part_003 lacks this check and continues the
chain, though its respond still performs no further writes.) -/
theorem claim_C1_direct_write_exhausts (c : Ctx) (h : Handler) (fuel : Nat)
    (hget : c.handlers.get? c.index = some h)
    (hret : (h c.view).ret = none)
    (hwr : (applyOps (h c.view).ops
        { c with index := c.index + 1, invoked := c.invoked ++ [c.index] }).written = true) :
    (nextV1 (fuel + 1) c).invoked = c.invoked ++ [c.index]
    ∧ (nextV1 (fuel + 1) c).index = c.handlers.length := by
  have hview : Ctx.view { c with index := c.index + 1, invoked := c.invoked ++ [c.index] }
      = c.view := rfl
  have hnext : nextV1 (fuel + 1) c =
      Ctx.stop (applyOps (h c.view).ops
        { c with index := c.index + 1, invoked := c.invoked ++ [c.index] }) := by
    rw [nextV1, hget]
    simp only [hview, hret, hwr, if_true]
  constructor
  · rw [hnext]
    simp [Ctx.stop, applyOps_invoked]
  · rw [hnext]
    have hh : (applyOps (h c.view).ops
        { c with index := c.index + 1, invoked := c.invoked ++ [c.index] }).handlers
        = c.handlers := by
      rw [applyOps_handlers]
    simp [Ctx.stop, hh]

/-- Handler that writes directly to the response and returns nil, for the
C1 witness. -/
def h1writer : Handler := fun _ => { ops := [Op.write "done"], ret := none }

/-- Probe handler, for the C1 witness chain tail. -/
def h1probe : Handler := fun _ => { ops := [], ret := none }

/-- Two-handler chain whose first handler writes directly, for the C1
witness. -/
def c1w : Ctx := newContext [h1writer, h1probe]

/-- C1 witness: the struct-based Next evaluated on a chain whose first
handler writes directly and returns nil — only handler 0 is invoked and
the cursor jumps to the chain length. -/
theorem claim_C1_witness :
    (h1writer c1w.view).ret = none
    ∧ (applyOps (h1writer c1w.view).ops
        { c1w with index := c1w.index + 1, invoked := c1w.invoked ++ [c1w.index] }).written
          = true
    ∧ ((nextV1 2 c1w).invoked = c1w.invoked ++ [c1w.index]
      ∧ (nextV1 2 c1w).index = c1w.handlers.length) :=
  ⟨rfl, rfl, claim_C1_direct_write_exhausts c1w h1writer 1 rfl rfl rfl⟩
